import Mathlib

/-!
Verification of `src/logger/logger.py` from image-health-reporter.

The module configures a named logger with a colorized console sink and a
plain-text file sink, driven by four environment variables.  We embed the
module together with the parts of the Python standard `logging` facility it
relies on (named-logger registry with ancestor chain, per-handler level
filtering, `FileHandler` opened in write mode, truncating the file at construction time,
`setLevel` on a string resolving through the fixed name-to-level table).
-/

namespace LoggerSpec

/-- Numeric severity levels of the logging facility. -/
def DEBUG : Nat := 10
def INFO : Nat := 20
def WARNING : Nat := 30
def ERROR : Nat := 40
def CRITICAL : Nat := 50

/-- `logging._nameToLevel`: resolving a level string to a numeric level;
`setLevel` on an unknown string raises `ValueError`. -/
def nameToLevel : String → Option Nat
  | "CRITICAL" => some 50
  | "FATAL" => some 50
  | "ERROR" => some 40
  | "WARN" => some 30
  | "WARNING" => some 30
  | "INFO" => some 20
  | "DEBUG" => some 10
  | "NOTSET" => some 0
  | _ => none

/-- `logging.getLevelName` for the numeric levels a record can carry. -/
def levelToName : Nat → String
  | 50 => "CRITICAL"
  | 40 => "ERROR"
  | 30 => "WARNING"
  | 20 => "INFO"
  | 10 => "DEBUG"
  | 0 => "NOTSET"
  | n => "Level " ++ toString n

/-- A log record: numeric level, level name, rendered message. -/
structure LogRecord where
  levelno : Nat
  levelname : String
  msg : String
deriving Repr, DecidableEq

def makeRecord (levelno : Nat) (msg : String) : LogRecord :=
  { levelno := levelno, levelname := levelToName levelno, msg := msg }

/-- `ColoredFormatter.COLORS`: severity number to ANSI escape code. -/
def COLORS (levelno : Nat) : Option String :=
  if levelno = 10 then some "\x1b[95m"
  else if levelno = 20 then some "\x1b[97m"
  else if levelno = 30 then some "\x1b[93m"
  else if levelno = 40 then some "\x1b[91m"
  else if levelno = 50 then some "\x1b[91m"
  else none

/-- `ColoredFormatter.RESET`. -/
def RESET : String := "\x1b[0m"

/-- The plain formatter with template `levelname - message` (brace style),
as used by both sinks. -/
def plainFormat (r : LogRecord) : String :=
  r.levelname ++ " - " ++ r.msg

/-- `ColoredFormatter.format`: look up the color by `record.levelno` with the
reset code as fallback, then wrap the plain-formatted text. -/
def coloredFormat (r : LogRecord) : String :=
  (COLORS r.levelno).getD RESET ++ plainFormat r ++ RESET

/-- `str.upper()` on the ASCII configuration strings: upper-case every
character. -/
def upper (s : String) : String :=
  String.mk (s.data.map Char.toUpper)

/-- `os.environ.get(key, default)`: the default applies only when the key is
absent, not when its value is the empty string. -/
def envGet (env : List (String × String)) (key dflt : String) : String :=
  (env.lookup key).getD dflt

/-- The four configuration values `getLogger` derives from the environment. -/
structure LoggerConfig where
  consoleLevel : String
  fileLevel : String
  fileDir : String
  fileName : String
deriving Repr, DecidableEq

/-- Lines 41-44 of `logger.py`: read the four environment variables, with
upper-casing applied to the two level strings. -/
def parseConfig (env : List (String × String)) : LoggerConfig :=
  { consoleLevel := upper (envGet env "CONSOLE_LOG_LEVEL" "INFO")
    fileLevel := upper (envGet env "FILE_LOG_LEVEL" "DEBUG")
    fileDir := envGet env "LOG_FILE_DIR" "."
    fileName := envGet env "LOG_FILE_NAME" "app.log" }

/-- `os.path.join` for POSIX paths, restricted to one join: an absolute
second component replaces the first, otherwise the components are joined
with a separator unless one is already present. -/
def pathJoin (a b : String) : String :=
  if b.data.head? = some '/' then b
  else if a = "" then b
  else if a.data.getLast? = some '/' then a ++ b
  else a ++ "/" ++ b

/-- A handler attached to a logger: the console handler (ColoredFormatter)
or the file handler (plain formatter) with its level and open file path. -/
inductive Sink where
  | console (level : Nat)
  | file (level : Nat) (path : String)
deriving Repr, DecidableEq

def isConsoleSink : Sink → Bool
  | Sink.console _ => true
  | Sink.file _ _ => false

def isFileSink : Sink → Bool
  | Sink.console _ => false
  | Sink.file _ _ => true

/-- State of one logger in the registry. -/
structure LoggerState where
  level : Nat
  propagate : Bool
  handlers : List Sink
deriving Repr, DecidableEq

/-- A logger as freshly created by `logging.getLogger`: level NOTSET,
propagation on, no handlers. -/
def freshLogger : LoggerState :=
  { level := 0, propagate := true, handlers := [] }

/-- Process state: the named-logger registry (association list, newest entry
first), the root logger, the file system contents, the set of paths whose
open fails, and the process environment. -/
structure Sys where
  registry : List (String × LoggerState)
  root : LoggerState
  files : List (String × String)
  openFail : List String
  env : List (String × String)
deriving Repr, DecidableEq

/-- The state a process starts in: no named loggers, root at WARNING with no
handlers, no files, every path openable. -/
def initSys (env : List (String × String)) : Sys :=
  { registry := [], root := { level := 30, propagate := true, handlers := [] },
    files := [], openFail := [], env := env }

def getLoggerState (sys : Sys) (name : String) : LoggerState :=
  (sys.registry.lookup name).getD freshLogger

def setLoggerState (sys : Sys) (name : String) (st : LoggerState) : Sys :=
  { sys with registry := (name, st) :: sys.registry }

/-- The handlers directly attached to the named logger. -/
def handlersOf (sys : Sys) (name : String) : List Sink :=
  (getLoggerState sys name).handlers

/-- Split a character list at the dots, like `String.splitOn "."`. -/
def splitDots : List Char → List (List Char)
  | [] => [[]]
  | c :: rest =>
    if c = '.' then [] :: splitDots rest
    else
      match splitDots rest with
      | [] => [[c]]
      | p :: ps => (c :: p) :: ps

/-- Join character lists with dots, like `String.intercalate "."`. -/
def joinDots : List (List Char) → List Char
  | [] => []
  | [p] => p
  | p :: ps => p ++ '.' :: joinDots ps

/-- The proper dotted prefixes of a logger name, longest first:
`"a.b.c"` yields `["a.b", "a"]`. -/
def properPrefixes (name : String) : List String :=
  let parts := splitDots name.data
  ((List.range (parts.length - 1)).reverse).map
    (fun k => String.mk (joinDots (parts.take (k + 1))))

/-- The chain of logger states from the named logger up to root, as walked by
`hasHandlers`, `getEffectiveLevel` and `callHandlers`: the logger itself, the
registered dotted-prefix ancestors (nearest first), then the root logger. -/
def chainStates (sys : Sys) (name : String) : List LoggerState :=
  getLoggerState sys name ::
    (properPrefixes name).filterMap (fun p => sys.registry.lookup p) ++ [sys.root]

/-- `Logger.hasHandlers`: walk up from the logger, stopping at the first
logger with handlers (true) or with propagation off (false). -/
def hasHandlersAux : List LoggerState → Bool
  | [] => false
  | st :: rest =>
    if st.handlers.isEmpty then
      if st.propagate then hasHandlersAux rest else false
    else true

def hasHandlers (sys : Sys) (name : String) : Bool :=
  hasHandlersAux (chainStates sys name)

/-- `Logger.getEffectiveLevel`: the first non-NOTSET level up the chain. -/
def effectiveLevelAux : List LoggerState → Nat
  | [] => 0
  | st :: rest => if st.level ≠ 0 then st.level else effectiveLevelAux rest

def getEffectiveLevel (sys : Sys) (name : String) : Nat :=
  effectiveLevelAux (chainStates sys name)

/-- `Logger.callHandlers`: the handlers a record reaches, walking up while
propagation is on. -/
def collectSinksAux : List LoggerState → List Sink
  | [] => []
  | st :: rest => st.handlers ++ (if st.propagate then collectSinksAux rest else [])

def collectSinks (sys : Sys) (name : String) : List Sink :=
  collectSinksAux (chainStates sys name)

/-- Content of a file, empty if it does not exist. -/
def getFile (files : List (String × String)) (path : String) : String :=
  (files.lookup path).getD ""

/-- Write a file's content (newest entry shadows older ones). -/
def setFile (files : List (String × String)) (path content : String) :
    List (String × String) :=
  (path, content) :: files

/-- The two ways `getLogger` can raise: `ValueError` from `setLevel` on an
unknown level string, `OSError` from opening the log file. -/
inductive LogError where
  | valueError
  | osError
deriving Repr, DecidableEq

/-- `getLogger(name)` from `logger.py`, lines 41-67.  Mutations made before a
raise persist (the logger is registered and its level set, the file handler
truncates the file at construction), so the function returns the state it
leaves behind together with the error, if any.  Faithful ordering: env
parsing, `logging.getLogger` + `setLevel(DEBUG)`, console handler
`setLevel(console_log_level)` (may raise), `FileHandler` constructed on the path in write mode
(opens and truncates now; may raise), file handler
`setLevel(file_log_level)` (may raise), then `if not logger.hasHandlers()`
attach console then file handler. -/
def getLogger (sys : Sys) (name : String) : Sys × Option LogError :=
  let cfg := parseConfig sys.env
  let st0 := getLoggerState sys name
  let sys1 := setLoggerState sys name { st0 with level := 10 }
  match nameToLevel cfg.consoleLevel with
  | none => (sys1, some LogError.valueError)
  | some consoleLv =>
    let path := pathJoin cfg.fileDir cfg.fileName
    if sys1.openFail.contains path then
      (sys1, some LogError.osError)
    else
      let sys2 := { sys1 with files := setFile sys1.files path "" }
      match nameToLevel cfg.fileLevel with
      | none => (sys2, some LogError.valueError)
      | some fileLv =>
        if hasHandlers sys2 name then
          (sys2, none)
        else
          let st := getLoggerState sys2 name
          (setLoggerState sys2 name
            { st with handlers :=
                st.handlers ++ [Sink.console consoleLv, Sink.file fileLv path] },
           none)

/-- Deliver a record to a list of sinks: each sink emits when its level is at
most the record's level; the console handler writes the colorized line plus
terminator to the console, the file handler appends the plain line plus
terminator to its file. -/
def emitAll (files : List (String × String)) (out : List String) (r : LogRecord) :
    List Sink → List (String × String) × List String
  | [] => (files, out)
  | Sink.console lv :: rest =>
    if lv ≤ r.levelno then
      emitAll files (out ++ [coloredFormat r ++ "\n"]) r rest
    else emitAll files out r rest
  | Sink.file lv path :: rest =>
    if lv ≤ r.levelno then
      emitAll (setFile files path (getFile files path ++ plainFormat r ++ "\n")) out r rest
    else emitAll files out r rest

/-- A log call `logger.log(levelno, msg)`: dropped unless the record level
reaches the logger's effective level, otherwise delivered to the collected
handlers.  Returns the new state and the lines written to the console. -/
def logCall (sys : Sys) (name : String) (levelno : Nat) (msg : String) :
    Sys × List String :=
  if getEffectiveLevel sys name ≤ levelno then
    let r := makeRecord levelno msg
    let fo := emitAll sys.files [] r (collectSinks sys name)
    ({ sys with files := fo.1 }, fo.2)
  else (sys, [])

/-- The four environment variables all set, for exercising as-is parsing. -/
def envFull : List (String × String) :=
  [("CONSOLE_LOG_LEVEL", "error"), ("FILE_LOG_LEVEL", "warn"),
   ("LOG_FILE_DIR", "/tmp"), ("LOG_FILE_NAME", "x.log")]

/-- An environment carrying an unresolvable console level string. -/
def envBad : List (String × String) := [("CONSOLE_LOG_LEVEL", "NOTALEVEL")]

/-- A pristine process in which opening the file at `./app.log` fails. -/
def sysFail : Sys :=
  { registry := [], root := { level := 30, propagate := true, handlers := [] },
    files := [], openFail := ["./app.log"], env := [] }

/-- The process state after `getLogger` on `x` and one INFO log call, from a
pristine process with an empty environment. -/
def sysAfterLog : Sys := (logCall (getLogger (initSys []) "x").1 "x" 20 "hello").1

/-- The state `getLogger` on `x` produces from a pristine process with an
empty environment. -/
def sysX : Sys :=
  ⟨[("x", ⟨10, true, [Sink.console 20, Sink.file 10 "./app.log"]⟩),
    ("x", ⟨10, true, []⟩)],
   ⟨30, true, []⟩, [("./app.log", "")], [], []⟩

/-- The states `getLogger` on `x` produces under `CONSOLE_LOG_LEVEL=ERROR`
and under `FILE_LOG_LEVEL=CRITICAL`, respectively. -/
def sysA : Sys :=
  ⟨[("x", ⟨10, true, [Sink.console 40, Sink.file 10 "./app.log"]⟩),
    ("x", ⟨10, true, []⟩)],
   ⟨30, true, []⟩, [("./app.log", "")], [], [("CONSOLE_LOG_LEVEL", "ERROR")]⟩

def sysB : Sys :=
  ⟨[("x", ⟨10, true, [Sink.console 20, Sink.file 50 "./app.log"]⟩),
    ("x", ⟨10, true, []⟩)],
   ⟨30, true, []⟩, [("./app.log", "")], [], [("FILE_LOG_LEVEL", "CRITICAL")]⟩

/-- A pristine process whose root logger already carries one handler. -/
def sysRoot : Sys := ⟨[], ⟨30, true, [Sink.console 30]⟩, [], [], []⟩

/-- Shared: the handler list of every logger is untouched by re-registering a
logger with only its level changed, as `logging.getLogger` + `setLevel` do. -/
theorem handlersOf_setLevel (sys : Sys) (name : String) (lv : Nat) (n : String) :
    handlersOf (setLoggerState sys name { getLoggerState sys name with level := lv }) n
      = handlersOf sys n := by
  unfold handlersOf getLoggerState setLoggerState
  rcases hbeq : n == name with _ | _
  · simp [List.lookup, hbeq]
  · have : n = name := eq_of_beq hbeq
    subst this
    simp [List.lookup, hbeq]

/-- Shared: `hasHandlers` walks a chain of loggers that all have empty handler
lists to `false`. -/
theorem hasHandlersAux_eq_false (l : List LoggerState)
    (h : ∀ st ∈ l, st.handlers = []) : hasHandlersAux l = false := by
  induction l with
  | nil => rfl
  | cons st rest ih =>
    have h1 := h st (List.mem_cons_self st rest)
    have h2 := ih (fun s hs => h s (List.mem_cons_of_mem st hs))
    simp [hasHandlersAux, h1, h2]

/-- Shared: a hit in a singleton registry returns its only entry. -/
theorem lookup_singleton_eq {p n : String} {X st : LoggerState}
    (h : List.lookup p [(n, X)] = some st) : st = X := by
  simp [List.lookup] at h
  split at h
  · exact (Option.some.inj h).symm
  · simp at h

/-- Shared: `hasHandlers` is true as soon as the logger itself has a handler,
whatever its ancestors hold. -/
theorem hasHandlers_head_nonempty (sys : Sys) (name : String)
    (hh : (getLoggerState sys name).handlers ≠ []) : hasHandlers sys name = true := by
  unfold hasHandlers chainStates
  obtain ⟨a, t, hat⟩ := List.exists_cons_of_ne_nil hh
  simp [hasHandlersAux, hat]

/-- Shared: re-registering a logger with only its level changed leaves the
handler list seen for every name unchanged, at the registry level. -/
theorem handlers_lookup_setLevel (reg : List (String × LoggerState)) (name n : String) (lv : Nat) :
    ((List.lookup n
        ((name, ⟨lv, ((List.lookup name reg).getD freshLogger).propagate,
          ((List.lookup name reg).getD freshLogger).handlers⟩) :: reg)).getD
        freshLogger).handlers
      = ((List.lookup n reg).getD freshLogger).handlers := by
  rcases hbeq : n == name with _ | _
  · simp [List.lookup, hbeq]
  · have heq : n = name := eq_of_beq hbeq
    subst heq
    simp [List.lookup, hbeq]

/-- Shared: `hasHandlers` reaches a handler-carrying root through a chain of
handler-less propagating loggers. -/
theorem hasHandlersAux_append_true (l : List LoggerState) (r : LoggerState)
    (h : ∀ st ∈ l, st.handlers = [] ∧ st.propagate = true)
    (hr : r.handlers ≠ []) : hasHandlersAux (l ++ [r]) = true := by
  induction l with
  | nil =>
    obtain ⟨a, t, hat⟩ := List.exists_cons_of_ne_nil hr
    simp [hasHandlersAux, hat]
  | cons st rest ih =>
    obtain ⟨h1, h2⟩ := h st (List.mem_cons_self st rest)
    simp [hasHandlersAux, h1, h2, ih (fun s hs => h s (List.mem_cons_of_mem st hs))]

/-- Shared: a first `getLogger` call in a pristine process: the logger is
registered at level DEBUG, the log file is truncated, and the console and
file handlers are attached in that order. -/
theorem getLogger_fresh_run (env : List (String × String)) (name : String) (cl fl : Nat)
    (hc : nameToLevel (parseConfig env).consoleLevel = some cl)
    (hf : nameToLevel (parseConfig env).fileLevel = some fl) :
    getLogger (initSys env) name =
      (⟨[(name, ⟨10, true,
            [Sink.console cl,
              Sink.file fl (pathJoin (parseConfig env).fileDir (parseConfig env).fileName)]⟩),
          (name, ⟨10, true, []⟩)],
        ⟨30, true, []⟩,
        [(pathJoin (parseConfig env).fileDir (parseConfig env).fileName, "")],
        [], env⟩, none) := by
  have hempty : ∀ st ∈ chainStates
      ⟨[(name, ⟨10, true, []⟩)], ⟨30, true, []⟩,
        [(pathJoin (parseConfig env).fileDir (parseConfig env).fileName, "")], [], env⟩ name,
      st.handlers = [] := by
    intro st hst
    simp [chainStates, getLoggerState, List.lookup_cons_self, List.mem_filterMap] at hst
    rcases hst with h | ⟨p, _, hp⟩ | h
    · rw [h]
    · rw [lookup_singleton_eq hp]
    · rw [h]
  have hh2 : hasHandlers
      ⟨[(name, ⟨10, true, []⟩)], ⟨30, true, []⟩,
        [(pathJoin (parseConfig env).fileDir (parseConfig env).fileName, "")], [], env⟩ name
      = false :=
    hasHandlersAux_eq_false _ hempty
  simp [getLogger, initSys, setLoggerState, getLoggerState, setFile, freshLogger,
    hc, hf, hh2, List.lookup_cons_self, List.lookup]

/-- Shared: a repeat `getLogger` call on a logger that already has handlers:
it re-registers the logger at level DEBUG and re-truncates the log file, but
attaches nothing. -/
theorem getLogger_attached_run (sys : Sys) (name : String) (cl fl : Nat)
    (hc : nameToLevel (parseConfig sys.env).consoleLevel = some cl)
    (hf : nameToLevel (parseConfig sys.env).fileLevel = some fl)
    (ho : sys.openFail.contains
        (pathJoin (parseConfig sys.env).fileDir (parseConfig sys.env).fileName) = false)
    (hh : handlersOf sys name ≠ []) :
    getLogger sys name =
      (⟨(name, ⟨10, (getLoggerState sys name).propagate,
            (getLoggerState sys name).handlers⟩) :: sys.registry,
         sys.root,
         (pathJoin (parseConfig sys.env).fileDir (parseConfig sys.env).fileName, "")
           :: sys.files,
         sys.openFail, sys.env⟩, none) := by
  have hkey : getLoggerState
      ⟨(name, ⟨10, (getLoggerState sys name).propagate,
            (getLoggerState sys name).handlers⟩) :: sys.registry,
        sys.root,
        (pathJoin (parseConfig sys.env).fileDir (parseConfig sys.env).fileName, "")
          :: sys.files,
        sys.openFail, sys.env⟩ name
      = ⟨10, (getLoggerState sys name).propagate, (getLoggerState sys name).handlers⟩ := by
    simp [getLoggerState, List.lookup_cons_self]
  have hh2 : hasHandlers
      ⟨(name, ⟨10, (getLoggerState sys name).propagate,
            (getLoggerState sys name).handlers⟩) :: sys.registry,
        sys.root,
        (pathJoin (parseConfig sys.env).fileDir (parseConfig sys.env).fileName, "")
          :: sys.files,
        sys.openFail, sys.env⟩ name = true := by
    apply hasHandlers_head_nonempty
    rw [hkey]
    exact hh
  have ho' : pathJoin (parseConfig sys.env).fileDir (parseConfig sys.env).fileName
      ∉ sys.openFail := by simpa using ho
  simp [getLogger, hc, hf, setLoggerState, setFile, hh2, ho']

end LoggerSpec

open LoggerSpec

/-- C1 counterexample: from a pristine process, `getLogger "x"`, one INFO log
call, then a second `getLogger "x"`: the file content written before the
second call does not persist after it — the repeat call reopens the file in
write mode and truncates it. -/
theorem c1_repeat_call_counterexample :
    getFile ((logCall (getLogger (initSys []) "x").1 "x" 20 "hello").1).files "./app.log"
      = "INFO - hello\n"
    ∧ getFile ((getLogger ((logCall (getLogger (initSys []) "x").1 "x" 20 "hello").1) "x").1).files
        "./app.log" ≠ "INFO - hello\n" :=
  ⟨by decide, by decide⟩

/-- C1 (amended): re-invoking `getLogger` on a name whose logger already has
sinks attaches no handler to any logger, and returns no error, but it still
constructs the file handler, reopening the log file in write mode and
truncating it to empty. -/
theorem c1_repeat_call_truncates (sys : Sys) (name : String) (cl fl : Nat)
    (hc : nameToLevel (parseConfig sys.env).consoleLevel = some cl)
    (hf : nameToLevel (parseConfig sys.env).fileLevel = some fl)
    (ho : sys.openFail.contains
        (pathJoin (parseConfig sys.env).fileDir (parseConfig sys.env).fileName) = false)
    (hh : handlersOf sys name ≠ []) :
    (getLogger sys name).2 = none
    ∧ (∀ n, handlersOf (getLogger sys name).1 n = handlersOf sys n)
    ∧ getFile (getLogger sys name).1.files
        (pathJoin (parseConfig sys.env).fileDir (parseConfig sys.env).fileName) = "" := by
  rw [getLogger_attached_run sys name cl fl hc hf ho hh]
  refine ⟨rfl, fun n => ?_, ?_⟩
  · simpa [handlersOf, getLoggerState] using handlers_lookup_setLevel sys.registry name n 10
  · simp [getFile, List.lookup_cons_self]

/-- C1 witness: the concrete two-call scenario, showing the repeat call keeps
the handlers and empties `./app.log`. -/
theorem c1_repeat_call_truncates_witness :
    handlersOf sysAfterLog "x" ≠ []
    ∧ (getLogger sysAfterLog "x").2 = none
    ∧ handlersOf (getLogger sysAfterLog "x").1 "x" = handlersOf sysAfterLog "x"
    ∧ getFile (getLogger sysAfterLog "x").1.files
        (pathJoin (parseConfig sysAfterLog.env).fileDir (parseConfig sysAfterLog.env).fileName)
      = "" :=
  ⟨by decide,
   (c1_repeat_call_truncates sysAfterLog "x" 20 10 (by decide) (by decide) (by decide)
     (by decide)).1,
   (c1_repeat_call_truncates sysAfterLog "x" 20 10 (by decide) (by decide) (by decide)
     (by decide)).2.1 "x",
   (c1_repeat_call_truncates sysAfterLog "x" 20 10 (by decide) (by decide) (by decide)
     (by decide)).2.2⟩

/-- C2: from a pristine process, two `getLogger` calls for the same name leave
the logger with exactly one console sink and one file sink; the second call
adds no handlers. -/
theorem c2_idempotent_sink_attachment (env : List (String × String)) (name : String)
    (cl fl : Nat)
    (hc : nameToLevel (parseConfig env).consoleLevel = some cl)
    (hf : nameToLevel (parseConfig env).fileLevel = some fl) :
    (handlersOf (getLogger (getLogger (initSys env) name).1 name).1 name).countP isConsoleSink = 1
    ∧ (handlersOf (getLogger (getLogger (initSys env) name).1 name).1 name).countP isFileSink = 1
    ∧ handlersOf (getLogger (getLogger (initSys env) name).1 name).1 name
      = handlersOf (getLogger (initSys env) name).1 name := by
  rw [getLogger_fresh_run env name cl fl hc hf]
  have hh : handlersOf
      ⟨[(name, ⟨10, true,
            [Sink.console cl,
              Sink.file fl (pathJoin (parseConfig env).fileDir (parseConfig env).fileName)]⟩),
          (name, ⟨10, true, []⟩)],
        ⟨30, true, []⟩,
        [(pathJoin (parseConfig env).fileDir (parseConfig env).fileName, "")],
        [], env⟩ name
      = [Sink.console cl,
          Sink.file fl (pathJoin (parseConfig env).fileDir (parseConfig env).fileName)] := by
    simp [handlersOf, getLoggerState, List.lookup_cons_self]
  rw [getLogger_attached_run
    ⟨[(name, ⟨10, true,
          [Sink.console cl,
            Sink.file fl (pathJoin (parseConfig env).fileDir (parseConfig env).fileName)]⟩),
        (name, ⟨10, true, []⟩)],
      ⟨30, true, []⟩,
      [(pathJoin (parseConfig env).fileDir (parseConfig env).fileName, "")],
      [], env⟩
    name cl fl hc hf rfl (by rw [hh]; simp)]
  refine ⟨?_, ?_, ?_⟩ <;>
    simp [handlersOf, getLoggerState, List.lookup_cons_self, List.countP_cons,
      isConsoleSink, isFileSink]

/-- C2 witness: the default environment and logger name `x`. -/
theorem c2_idempotent_sink_attachment_witness :
    nameToLevel (parseConfig []).consoleLevel = some 20
    ∧ nameToLevel (parseConfig []).fileLevel = some 10
    ∧ (handlersOf (getLogger (getLogger (initSys []) "x").1 "x").1 "x").countP isConsoleSink = 1
    ∧ (handlersOf (getLogger (getLogger (initSys []) "x").1 "x").1 "x").countP isFileSink = 1 :=
  ⟨by decide, by decide,
   (c2_idempotent_sink_attachment [] "x" 20 10 (by decide) (by decide)).1,
   (c2_idempotent_sink_attachment [] "x" 20 10 (by decide) (by decide)).2.1⟩

/-- C3 counterexample: with `CONSOLE_LOG_LEVEL` set to the empty string, the
parsed console level is the empty string, not the default `INFO`, and
`getLogger` raises `ValueError` instead of defaulting. -/
theorem c3_counterexample :
    (parseConfig [("CONSOLE_LOG_LEVEL", "")]).consoleLevel ≠ "INFO"
    ∧ (getLogger (initSys [("CONSOLE_LOG_LEVEL", "")]) "x").2 = some LogError.valueError := by
  constructor
  · decide
  · decide

/-- C3 (amended): each environment variable is parsed independently and
replaced by its default only when absent; a present value, even empty, is
used as-is, with level strings upper-cased. -/
theorem c3_defaults_on_absence (env : List (String × String)) :
    (env.lookup "CONSOLE_LOG_LEVEL" = none → (parseConfig env).consoleLevel = "INFO")
    ∧ (env.lookup "FILE_LOG_LEVEL" = none → (parseConfig env).fileLevel = "DEBUG")
    ∧ (env.lookup "LOG_FILE_DIR" = none → (parseConfig env).fileDir = ".")
    ∧ (env.lookup "LOG_FILE_NAME" = none → (parseConfig env).fileName = "app.log")
    ∧ (∀ s, env.lookup "CONSOLE_LOG_LEVEL" = some s → (parseConfig env).consoleLevel = upper s)
    ∧ (∀ s, env.lookup "FILE_LOG_LEVEL" = some s → (parseConfig env).fileLevel = upper s)
    ∧ (∀ s, env.lookup "LOG_FILE_DIR" = some s → (parseConfig env).fileDir = s)
    ∧ (∀ s, env.lookup "LOG_FILE_NAME" = some s → (parseConfig env).fileName = s) := by
  refine ⟨fun h => ?_, fun h => ?_, fun h => ?_, fun h => ?_,
    fun s h => ?_, fun s h => ?_, fun s h => ?_, fun s h => ?_⟩ <;>
    simp [parseConfig, envGet, h] <;> decide

/-- C3 witness: the defaults at an empty environment, and as-is parsing at a
fully populated one. -/
theorem c3_defaults_on_absence_witness :
    (parseConfig []).consoleLevel = "INFO"
    ∧ (parseConfig []).fileLevel = "DEBUG"
    ∧ (parseConfig []).fileDir = "."
    ∧ (parseConfig []).fileName = "app.log"
    ∧ (parseConfig envFull).consoleLevel = upper "error"
    ∧ (parseConfig envFull).fileLevel = upper "warn"
    ∧ (parseConfig envFull).fileDir = "/tmp"
    ∧ (parseConfig envFull).fileName = "x.log" :=
  ⟨(c3_defaults_on_absence []).1 rfl,
   (c3_defaults_on_absence []).2.1 rfl,
   (c3_defaults_on_absence []).2.2.1 rfl,
   (c3_defaults_on_absence []).2.2.2.1 rfl,
   (c3_defaults_on_absence envFull).2.2.2.2.1 "error" (by decide),
   (c3_defaults_on_absence envFull).2.2.2.2.2.1 "warn" (by decide),
   (c3_defaults_on_absence envFull).2.2.2.2.2.2.1 "/tmp" (by decide),
   (c3_defaults_on_absence envFull).2.2.2.2.2.2.2 "x.log" (by decide)⟩

/-- C4: at each of the five defined severities the colored formatter emits the
mapped ANSI code, then the plain `severity - message` text, then the reset. -/
theorem c4_colored_format_five_levels (msg : String) :
    coloredFormat (makeRecord DEBUG msg) = "\x1b[95m" ++ ("DEBUG" ++ " - " ++ msg) ++ "\x1b[0m"
    ∧ coloredFormat (makeRecord INFO msg) = "\x1b[97m" ++ ("INFO" ++ " - " ++ msg) ++ "\x1b[0m"
    ∧ coloredFormat (makeRecord WARNING msg) = "\x1b[93m" ++ ("WARNING" ++ " - " ++ msg) ++ "\x1b[0m"
    ∧ coloredFormat (makeRecord ERROR msg) = "\x1b[91m" ++ ("ERROR" ++ " - " ++ msg) ++ "\x1b[0m"
    ∧ coloredFormat (makeRecord CRITICAL msg) = "\x1b[91m" ++ ("CRITICAL" ++ " - " ++ msg) ++ "\x1b[0m" := by
  refine ⟨?_, ?_, ?_, ?_, ?_⟩ <;>
    simp [coloredFormat, makeRecord, plainFormat, COLORS, RESET, levelToName,
      DEBUG, INFO, WARNING, ERROR, CRITICAL]

/-- C5: the logger itself is left at DEBUG and each sink filters on its own:
with `CONSOLE_LOG_LEVEL=ERROR` an INFO record reaches the file but not the
console; with `FILE_LOG_LEVEL=CRITICAL` an ERROR record reaches the console
but not the file. -/
theorem c5_independent_sink_filtering (msg : String) :
    (getLoggerState (getLogger (initSys [("CONSOLE_LOG_LEVEL", "ERROR")]) "x").1 "x").level
      = DEBUG
    ∧ (logCall (getLogger (initSys [("CONSOLE_LOG_LEVEL", "ERROR")]) "x").1 "x" INFO msg).2 = []
    ∧ getFile (logCall (getLogger (initSys [("CONSOLE_LOG_LEVEL", "ERROR")]) "x").1
        "x" INFO msg).1.files "./app.log" = "INFO - " ++ msg ++ "\n"
    ∧ (logCall (getLogger (initSys [("FILE_LOG_LEVEL", "CRITICAL")]) "x").1 "x" ERROR msg).2
      = ["\x1b[91m" ++ ("ERROR" ++ " - " ++ msg) ++ "\x1b[0m" ++ "\n"]
    ∧ getFile (logCall (getLogger (initSys [("FILE_LOG_LEVEL", "CRITICAL")]) "x").1
        "x" ERROR msg).1.files "./app.log" = "" := by
  have hA : (getLogger (initSys [("CONSOLE_LOG_LEVEL", "ERROR")]) "x").1 = sysA := by decide
  have hB : (getLogger (initSys [("FILE_LOG_LEVEL", "CRITICAL")]) "x").1 = sysB := by decide
  rw [hA, hB]
  have heA : getEffectiveLevel sysA "x" = 10 := by decide
  have hsA : collectSinks sysA "x" = [Sink.console 40, Sink.file 10 "./app.log"] := by decide
  have heB : getEffectiveLevel sysB "x" = 10 := by decide
  have hsB : collectSinks sysB "x" = [Sink.console 20, Sink.file 50 "./app.log"] := by decide
  have hnI : levelToName 20 = "INFO" := by decide
  have hnE : levelToName 40 = "ERROR" := by decide
  have hfA : sysA.files = [("./app.log", "")] := rfl
  have hfB : sysB.files = [("./app.log", "")] := rfl
  refine ⟨by decide, ?_, ?_, ?_, ?_⟩ <;>
    simp [logCall, heA, hsA, heB, hsB, emitAll, makeRecord, hnI, hnE, plainFormat,
      getFile, setFile, List.lookup_cons_self, coloredFormat, COLORS, RESET,
      INFO, ERROR, hfA, hfB, String.ext_iff, String.data_append]

/-- C6: when the resolved log-file path cannot be opened, `getLogger` returns
`OSError` and leaves every logger's attached handlers unchanged. -/
theorem c6_open_failure_no_partial_attach (sys : Sys) (name : String) (cl : Nat)
    (hc : nameToLevel (parseConfig sys.env).consoleLevel = some cl)
    (ho : sys.openFail.contains
        (pathJoin (parseConfig sys.env).fileDir (parseConfig sys.env).fileName) = true) :
    (getLogger sys name).2 = some LogError.osError
    ∧ ∀ n, handlersOf (getLogger sys name).1 n = handlersOf sys n := by
  have hgl : getLogger sys name =
      (setLoggerState sys name { getLoggerState sys name with level := 10 },
        some LogError.osError) := by
    simp [getLogger, hc, setLoggerState, ho]
    intro hnot
    exact absurd (by simpa using ho) hnot
  rw [hgl]
  exact ⟨rfl, fun n => handlersOf_setLevel sys name 10 n⟩

/-- C6 witness: a state where `./app.log` cannot be opened. -/
theorem c6_open_failure_no_partial_attach_witness :
    nameToLevel (parseConfig sysFail.env).consoleLevel = some 20
    ∧ sysFail.openFail.contains
        (pathJoin (parseConfig sysFail.env).fileDir (parseConfig sysFail.env).fileName) = true
    ∧ (getLogger sysFail "x").2 = some LogError.osError
    ∧ handlersOf (getLogger sysFail "x").1 "x" = handlersOf sysFail "x" :=
  ⟨by decide, by decide,
   (c6_open_failure_no_partial_attach sysFail "x" 20 (by decide) (by decide)).1,
   (c6_open_failure_no_partial_attach sysFail "x" 20 (by decide) (by decide)).2 "x"⟩

/-- C7: a level string that does not resolve to a severity makes `getLogger`
return an error at call time. -/
theorem c7_invalid_level_fails (sys : Sys) (name : String)
    (h : nameToLevel (parseConfig sys.env).consoleLevel = none
       ∨ nameToLevel (parseConfig sys.env).fileLevel = none) :
    ((getLogger sys name).2).isSome = true := by
  rcases h with h | h
  · simp [getLogger, h]
  · rcases hc : nameToLevel (parseConfig sys.env).consoleLevel with _ | cl
    · simp [getLogger, hc]
    · simp [getLogger, hc, h]
      split <;> simp

/-- C7 witness: `CONSOLE_LOG_LEVEL=NOTALEVEL` fails at `getLogger` time. -/
theorem c7_invalid_level_fails_witness :
    (nameToLevel (parseConfig (initSys envBad).env).consoleLevel = none
      ∨ nameToLevel (parseConfig (initSys envBad).env).fileLevel = none)
    ∧ ((getLogger (initSys envBad) "x").2).isSome = true :=
  ⟨Or.inl (by decide), c7_invalid_level_fails (initSys envBad) "x" (Or.inl (by decide))⟩

/-- C8: a severity missing from the color table falls back to the reset code
as prefix, still emitting the plain text and the reset suffix; no failure. -/
theorem c8_unmapped_severity_fallback (r : LogRecord) (h : COLORS r.levelno = none) :
    coloredFormat r = "\x1b[0m" ++ (r.levelname ++ " - " ++ r.msg) ++ "\x1b[0m" := by
  simp [coloredFormat, plainFormat, RESET, h]

/-- C8 witness: severity 25 is unmapped and formats with the reset prefix. -/
theorem c8_unmapped_severity_fallback_witness :
    COLORS 25 = none
    ∧ coloredFormat ⟨25, "Level 25", "boom"⟩
      = "\x1b[0m" ++ ("Level 25" ++ " - " ++ "boom") ++ "\x1b[0m" :=
  ⟨by decide, c8_unmapped_severity_fallback ⟨25, "Level 25", "boom"⟩ (by decide)⟩

/-- C9: with the environment empty, the file path resolves to `./app.log` and
one INFO-level call leaves exactly the plain line `INFO - <message>` plus
newline in the file, with no color codes. -/
theorem c9_default_path_plain_file_line (msg : String) :
    pathJoin (parseConfig []).fileDir (parseConfig []).fileName = "./app.log"
    ∧ getFile ((logCall (getLogger (initSys []) "x").1 "x" INFO msg).1).files "./app.log"
      = "INFO - " ++ msg ++ "\n" := by
  refine ⟨by decide, ?_⟩
  have h1 : (getLogger (initSys []) "x").1 = sysX := by decide
  rw [h1]
  have he : getEffectiveLevel sysX "x" = 10 := by decide
  have hs : collectSinks sysX "x" = [Sink.console 20, Sink.file 10 "./app.log"] := by decide
  have hn : levelToName 20 = "INFO" := by decide
  have hfx : sysX.files = [("./app.log", "")] := rfl
  simp [logCall, he, hs, emitAll, makeRecord, hn, plainFormat, getFile, setFile,
    List.lookup_cons_self, coloredFormat, COLORS, RESET, INFO, hfx,
    String.ext_iff, String.data_append]

/-- C10: the duplicate check is `hasHandlers`, which consults ancestors: with
any handler on the root logger, a first call for a fresh name attaches
nothing, returning a logger with zero directly-attached sinks. -/
theorem c10_ancestor_handlers_block_attachment (env : List (String × String))
    (name : String) (cl fl : Nat) (rt : LoggerState)
    (hc : nameToLevel (parseConfig env).consoleLevel = some cl)
    (hf : nameToLevel (parseConfig env).fileLevel = some fl)
    (hr : rt.handlers ≠ []) :
    (getLogger ⟨[], rt, [], [], env⟩ name).2 = none
    ∧ handlersOf (getLogger ⟨[], rt, [], [], env⟩ name).1 name = [] := by
  have hh2 : hasHandlers
      ⟨[(name, ⟨10, true, []⟩)], rt,
        [(pathJoin (parseConfig env).fileDir (parseConfig env).fileName, "")], [], env⟩ name
      = true := by
    unfold hasHandlers
    rw [chainStates]
    apply hasHandlersAux_append_true _ _ _ hr
    intro st hst
    rcases List.mem_cons.mp hst with h | h
    · rw [h]
      constructor <;> simp [getLoggerState, List.lookup_cons_self]
    · obtain ⟨p, _, hp⟩ := List.mem_filterMap.mp h
      rw [lookup_singleton_eq hp]
      exact ⟨rfl, rfl⟩
  simp [getLogger, setLoggerState, getLoggerState, setFile, freshLogger, hc, hf, hh2,
    List.lookup_cons_self, List.lookup, handlersOf]

/-- C10 witness: a root logger carrying one handler blocks attachment for the
fresh name `y`. -/
theorem c10_ancestor_handlers_block_attachment_witness :
    sysRoot.root.handlers ≠ []
    ∧ (getLogger sysRoot "y").2 = none
    ∧ handlersOf (getLogger sysRoot "y").1 "y" = [] :=
  ⟨by decide,
   (c10_ancestor_handlers_block_attachment [] "y" 20 10 ⟨30, true, [Sink.console 30]⟩
     (by decide) (by decide) (by decide)).1,
   (c10_ancestor_handlers_block_attachment [] "y" 20 10 ⟨30, true, [Sink.console 30]⟩
     (by decide) (by decide) (by decide)).2⟩
